import Mathlib

/-!
Verification development for the hubble-server plan routes and role gate.

The program under study has two source files:
* the plan resource router (`toExternal`, `planSchema`, `filterSchema`,
  `attachRoutes` with the POST /plans, GET /plans and GET /plans/:identifier
  handlers), and
* the `requireRole` middleware.

The embedding below translates those functions directly.  Strings stay
strings, JavaScript `undefined`/missing values become `Option`, numbers
become `Int` (no numeric claim depends on float semantics), instants become
`Int` timestamps, and the external date-fns helpers (`subMonths`,
`startOfDay`, `endOfDay`) are passed in as function arguments, exactly as
the handler merely composes them.  The record store is a `List Plan`; the
store query issued by the list handler is reified as a list of filter
clauses mirroring the MongoDB filter document the handler builds.
-/

/-- Character class of the route identifier pattern `^[a-z0-9]\x7b24\x7d$`
(part_000 line 221): lowercase letters and digits. -/
def isIdentChar (c : Char) : Bool :=
  ('a' ≤ c && c ≤ 'z') || ('0' ≤ c && c ≤ '9')

/-- The test `identifierPattern.test s` of the get-by-id route: exactly 24
characters, all lowercase alphanumeric. -/
def identifierPattern (s : String) : Bool :=
  s.length == 24 && s.data.all isIdentChar

/-- Lowercase hexadecimal digit. -/
def isLowerHexChar (c : Char) : Bool :=
  ('0' ≤ c && c ≤ '9') || ('a' ≤ c && c ≤ 'f')

/-- A well-formed record identifier as the spec describes it: 24 lowercase
hexadecimal characters (the shape of every store-assigned id). -/
def isLowerHex24 (s : String) : Bool :=
  s.length == 24 && s.data.all isLowerHexChar

/-- Hexadecimal digit, either case (the bson hex check is case-insensitive). -/
def isHexChar (c : Char) : Bool :=
  isLowerHexChar c || ('A' ≤ c && c ≤ 'F')

/-- Models the external `mongoose.Types.ObjectId` constructor at the call
sites of these routes: a 24-character hexadecimal string is accepted, any
other string makes the constructor throw (surfacing as a fatal error, not a
handled response).  The constructor's 12-byte-binary-string form never
arises at these call sites and is omitted; case normalization of the kept
hex string is also omitted, and the theorems below only instantiate caller
identities and identifiers at lowercase hex, where the omission is
invisible. -/
def objectIdMake (s : String) : Except String String :=
  if s.length == 24 && s.data.all isHexChar then Except.ok s
  else Except.error ("Argument passed in must be a string of 24 hex characters")

/-- A stored plan record: the eleven validated fields plus the
store-assigned identifier, the owner reference, and the two timestamps. -/
structure Plan where
  id : String
  ownerId : String
  name : String
  code : String
  description : Option String
  billingCyclePeriod : Int
  billingCyclePeriodUnit : String
  pricePerBillingCycle : Int
  setupFee : Int
  totalBillingCycles : Int
  trialPeriod : Int
  trialPeriodUnit : String
  renews : Bool
  createdAt : Int
  updatedAt : Int
deriving DecidableEq

/-- The externally visible projection of a plan. -/
structure ExternalPlan where
  id : String
  ownerId : String
  name : String
  code : String
  description : Option String
  billingCyclePeriod : Int
  billingCyclePeriodUnit : String
  pricePerBillingCycle : Int
  setupFee : Int
  totalBillingCycles : Int
  trialPeriod : Int
  trialPeriodUnit : String
  renews : Bool
  createdAt : Int
  updatedAt : Int
deriving DecidableEq

/-- Mirrors `toExternal` (part_000 lines 30-48), field for field. -/
def toExternal (plan : Plan) : ExternalPlan :=
  { id := plan.id
    ownerId := plan.ownerId
    name := plan.name
    code := plan.code
    description := plan.description
    billingCyclePeriod := plan.billingCyclePeriod
    billingCyclePeriodUnit := plan.billingCyclePeriodUnit
    pricePerBillingCycle := plan.pricePerBillingCycle
    setupFee := plan.setupFee
    totalBillingCycles := plan.totalBillingCycles
    trialPeriod := plan.trialPeriod
    trialPeriodUnit := plan.trialPeriodUnit
    renews := plan.renews
    createdAt := plan.createdAt
    updatedAt := plan.updatedAt }

/-- The object handed to `planSchema.validate`: the eleven schema fields,
each possibly `undefined`. -/
structure PlanParams where
  name : Option String
  code : Option String
  description : Option String
  billingCyclePeriod : Option Int
  billingCyclePeriodUnit : Option String
  pricePerBillingCycle : Option Int
  setupFee : Option Int
  totalBillingCycles : Option Int
  trialPeriod : Option Int
  trialPeriodUnit : Option String
  renews : Option Bool
deriving DecidableEq

/-- A raw create-request body.  Besides the eleven schema fields it can
carry an `ownerId` field (clients may send one); the handler never reads
it. -/
structure PlanBody where
  name : Option String
  code : Option String
  description : Option String
  billingCyclePeriod : Option Int
  billingCyclePeriodUnit : Option String
  pricePerBillingCycle : Option Int
  setupFee : Option Int
  totalBillingCycles : Option Int
  trialPeriod : Option Int
  trialPeriodUnit : Option String
  renews : Option Bool
  ownerId : Option String
deriving DecidableEq

/-- Mirrors the `parameters` object literal of the POST /plans handler
(part_000 lines 104-116): exactly the eleven schema fields are copied out
of the body; `body.ownerId` is not among them. -/
def extractParameters (body : PlanBody) : PlanParams :=
  { name := body.name
    code := body.code
    description := body.description
    billingCyclePeriod := body.billingCyclePeriod
    billingCyclePeriodUnit := body.billingCyclePeriodUnit
    pricePerBillingCycle := body.pricePerBillingCycle
    setupFee := body.setupFee
    totalBillingCycles := body.totalBillingCycles
    trialPeriod := body.trialPeriod
    trialPeriodUnit := body.trialPeriodUnit
    renews := body.renews }

/-- The value set produced by a successful `planSchema.validate`. -/
structure ValidatedPlan where
  name : String
  code : String
  description : Option String
  billingCyclePeriod : Int
  billingCyclePeriodUnit : String
  pricePerBillingCycle : Int
  setupFee : Int
  totalBillingCycles : Int
  trialPeriod : Int
  trialPeriodUnit : String
  renews : Bool
deriving DecidableEq

/-- Alphanumeric character, as joi `alphanum` accepts. -/
def isAlnumChar (c : Char) : Bool :=
  ('a' ≤ c && c ≤ 'z') || ('A' ≤ c && c ≤ 'Z') || ('0' ≤ c && c ≤ '9')

/-- ASCII lowercasing of one character, as `toLowerCase` acts on the
character sets these schemas allow. -/
def charToLower (c : Char) : Char :=
  if 'A' ≤ c && c ≤ 'Z' then Char.ofNat (c.toNat + 32) else c

/-- The string lowercasing the joi `lowercase` conversion performs. -/
def strToLower (s : String) : String := String.mk (s.data.map charToLower)

/-- Whitespace as the joi `trim` conversion strips it. -/
def isSpaceChar (c : Char) : Bool := c == ' ' || c == '\t' || c == '\n' || c == '\r'

/-- The leading/trailing-whitespace strip the joi `trim` conversion
performs. -/
def strTrim (s : String) : String :=
  String.mk (((s.data.dropWhile isSpaceChar).reverse.dropWhile isSpaceChar).reverse)

/-- The `name` rule of `planSchema` (part_000 line 51):
`joi.string().trim().min(2).max(100).required()`. -/
def checkName (v : Option String) : Except String String :=
  match v with
  | none => Except.error ("\"name\" is required")
  | some s =>
    let t := strTrim s
    if t.length < 2 then
      Except.error ("\"name\" length must be at least 2 characters long")
    else if 100 < t.length then
      Except.error ("\"name\" length must be less than or equal to 100 characters long")
    else Except.ok t

/-- The `code` rule of `planSchema` (part_000 line 52):
`joi.string().trim().lowercase().alphanum().min(2).max(20).required()`. -/
def checkCode (v : Option String) : Except String String :=
  match v with
  | none => Except.error ("\"code\" is required")
  | some s =>
    let t := strToLower (strTrim s)
    if !t.data.all isAlnumChar then
      Except.error ("\"code\" must only contain alpha-numeric characters")
    else if t.length < 2 then
      Except.error ("\"code\" length must be at least 2 characters long")
    else if 20 < t.length then
      Except.error ("\"code\" length must be less than or equal to 20 characters long")
    else Except.ok t

/-- The `description` rule of `planSchema` (part_000 lines 53-59): trimmed,
at most 200 characters, null allowed, the empty string and absence both
default to null. -/
def checkDescription (v : Option String) : Except String (Option String) :=
  match v with
  | none => Except.ok none
  | some s =>
    let t := strTrim s
    if t == "" then Except.ok none
    else if 200 < t.length then
      Except.error ("\"description\" length must be less than or equal to 200 characters long")
    else Except.ok (some t)

/-- A required joi number/integer field. -/
def checkRequiredInt (field : String) (v : Option Int) : Except String Int :=
  match v with
  | none => Except.error (field ++ " is required")
  | some n => Except.ok n

/-- A required `joi.string().valid("days", "months")` field. -/
def checkUnit (field : String) (v : Option String) : Except String String :=
  match v with
  | none => Except.error (field ++ " is required")
  | some s =>
    if s == "days" || s == "months" then Except.ok s
    else Except.error (field ++ " must be one of [days, months]".trim)

/-- A `joi.string().valid("days", "months").default("days")` field. -/
def checkUnitDefault (field : String) (v : Option String) : Except String String :=
  match v with
  | none => Except.ok ("days")
  | some s =>
    if s == "days" || s == "months" then Except.ok s
    else Except.error (field ++ " must be one of [days, months]".trim)

/-- `planSchema.validate` (part_000 lines 50-68), first-error semantics in
schema key order. -/
def planValidate (p : PlanParams) : Except String ValidatedPlan := do
  let name ← checkName p.name
  let code ← checkCode p.code
  let description ← checkDescription p.description
  let billingCyclePeriod ← checkRequiredInt ("\"billingCyclePeriod\"") p.billingCyclePeriod
  let billingCyclePeriodUnit ← checkUnit ("\"billingCyclePeriodUnit\"") p.billingCyclePeriodUnit
  let pricePerBillingCycle ← checkRequiredInt ("\"pricePerBillingCycle\"") p.pricePerBillingCycle
  let totalBillingCycles ← checkRequiredInt ("\"totalBillingCycles\"") p.totalBillingCycles
  let trialPeriodUnit ← checkUnitDefault ("\"trialPeriodUnit\"") p.trialPeriodUnit
  Except.ok
    { name := name
      code := code
      description := description
      billingCyclePeriod := billingCyclePeriod
      billingCyclePeriodUnit := billingCyclePeriodUnit
      pricePerBillingCycle := pricePerBillingCycle
      setupFee := p.setupFee.getD 0
      totalBillingCycles := totalBillingCycles
      trialPeriod := p.trialPeriod.getD 0
      trialPeriodUnit := trialPeriodUnit
      renews := p.renews.getD true }

/-- A response of the create and get-by-id handlers.  `fatal` stands for an
exception escaping the handler (an unhandled rejection surfaced to the
transport layer), as opposed to a response the handler itself sends. -/
inductive Response where
  | ok (body : ExternalPlan)
  | created (body : ExternalPlan)
  | badRequest (message : String)
  | notFound (message : String)
  | fatal (message : String)
deriving DecidableEq

/-- Models `value.ownerId = ownerId; const newPlan = new Plan(value); await
newPlan.save()` (part_000 lines 137-139): the saved record carries the
validated fields, the caller-derived owner, and the store-assigned
identifier and timestamps (passed in explicitly). -/
def mkPlan (value : ValidatedPlan) (ownerId newId : String) (now : Int) : Plan :=
  { id := newId
    ownerId := ownerId
    name := value.name
    code := value.code
    description := value.description
    billingCyclePeriod := value.billingCyclePeriod
    billingCyclePeriodUnit := value.billingCyclePeriodUnit
    pricePerBillingCycle := value.pricePerBillingCycle
    setupFee := value.setupFee
    totalBillingCycles := value.totalBillingCycles
    trialPeriod := value.trialPeriod
    trialPeriodUnit := value.trialPeriodUnit
    renews := value.renews
    createdAt := now
    updatedAt := now }

/-- The uniqueness pre-check of the create handler (part_000 lines
126-129): `Plan.findOne(\x7b code: value.code, ownerId \x7d)`. -/
def duplicateCheck (store : List Plan) (code ownerId : String) : Option Plan :=
  store.find? (fun p => p.code == code && p.ownerId == ownerId)

/-- The POST /plans handler (part_000 lines 102-142).  Arguments beyond
the request: the store contents, and the identifier and timestamp the
store would assign to a new record.  Returns the response paired with the
store contents after the request. -/
def createPlan (body : PlanBody) (callerId : String) (store : List Plan)
    (newId : String) (now : Int) : Response × List Plan :=
  match planValidate (extractParameters body) with
  | Except.error msg => (Response.badRequest msg, store)
  | Except.ok value =>
    match objectIdMake callerId with
    | Except.error msg => (Response.fatal msg, store)
    | Except.ok ownerId =>
      match duplicateCheck store value.code ownerId with
      | some _ =>
        (Response.badRequest ("A plan with the specified code already exists."), store)
      | none =>
        let newPlan := mkPlan value ownerId newId now
        (Response.created (toExternal newPlan), store ++ [newPlan])

/-- The GET /plans/:identifier handler (part_000 lines 223-239):
pattern check, then `Plan.findById(id).and([\x7b ownerId \x7d])`. -/
def getPlanById (identifier callerId : String) (store : List Plan) : Response :=
  if !identifierPattern identifier then
    Response.badRequest ("The specified plan identifier is invalid.")
  else
    match objectIdMake callerId with
    | Except.error msg => Response.fatal msg
    | Except.ok ownerId =>
      match objectIdMake identifier with
      | Except.error msg => Response.fatal msg
      | Except.ok oid =>
        match store.find? (fun p => p.id == oid && p.ownerId == ownerId) with
        | some plan => Response.ok (toExternal plan)
        | none => Response.notFound ("Cannot find a plan with the specified identifier.")

/-- The object handed to `filterSchema.validate` (part_000 lines 146-153).
Its keys are `page`, `limit`, `dateRange`, `startDate`, `endDate`,
`search`; the snake-case wire names are only used to read the query, not as
keys of this object. -/
structure FilterParams where
  page : Option Int
  limit : Option Int
  dateRange : Option String
  startDate : Option Int
  endDate : Option Int
  search : Option String
deriving DecidableEq

/-- The value set produced by a successful `filterSchema.validate`. -/
structure ValidatedFilter where
  page : Int
  limit : Int
  dateRange : String
  startDate : Option Int
  endDate : Option Int
  search : Option String
deriving DecidableEq

/-- Membership in the valid `dateRange` tag set of `filterSchema`
(part_000 lines 78-90). -/
def isValidDateRangeTag (s : String) : Bool :=
  s == "all_time" || s == "last_3_months" || s == "last_6_months" ||
  s == "last_9_months" || s == "last_12_months" || s == "last_15_months" ||
  s == "last_18_months" || s == "custom"

/-- `page: joi.number().integer().default(0)`. -/
def checkPage (v : Option Int) : Except String Int :=
  Except.ok (v.getD 0)

/-- `limit: joi.number().integer().min(10).max(PAGINATE_MAX_LIMIT)
.default(20)`.  The configured maximum is a parameter (its constant lives
outside the studied sources). -/
def checkLimit (maxLimit : Int) (v : Option Int) : Except String Int :=
  match v with
  | none => Except.ok 20
  | some n =>
    if n < 10 then Except.error ("\"limit\" must be greater than or equal to 10")
    else if maxLimit < n then Except.error ("\"limit\" must be less than or equal to the configured maximum")
    else Except.ok n

/-- The `dateRange` rule: a string from `dateRangeTags`, defaulting to
all_time. -/
def checkDateRange (v : Option String) : Except String String :=
  match v with
  | none => Except.ok ("all_time")
  | some s =>
    if isValidDateRangeTag s then Except.ok s
    else Except.error ("\"dateRange\" must be one of the recognized values")

/-- Resolution of a joi sibling reference against the validated object.
The object's keys are exactly `page`, `limit`, `dateRange`, `startDate`,
`endDate` and `search`; a reference to any other key — in particular to
`date_range`, the name the schema's when-conditions use — resolves to
undefined. -/
def siblingStringRef (p : FilterParams) (key : String) : Option String :=
  if key == "dateRange" then p.dateRange
  else if key == "search" then p.search
  else none

/-- `joi.date().when(ref, \x7b is: "custom", then: joi.required() \x7d)`:
the field is required exactly when the referenced sibling string equals
custom. -/
def checkWhenDate (field : String) (required : Bool) (v : Option Int) :
    Except String (Option Int) :=
  match v with
  | some d => Except.ok (some d)
  | none =>
    if required then Except.error (field ++ " is required")
    else Except.ok none

/-- `search: joi.string().trim().allow(null).empty("").default(null)`. -/
def checkSearch (v : Option String) : Except String (Option String) :=
  match v with
  | none => Except.ok none
  | some s =>
    let t := strTrim s
    if t == "" then Except.ok none else Except.ok (some t)

/-- `filterSchema.validate` (part_000 lines 70-98), first-error semantics
in schema key order.  The when-conditions on `startDate` and `endDate`
reference the sibling key `date_range`, exactly as the source writes it. -/
def filterValidate (maxLimit : Int) (p : FilterParams) : Except String ValidatedFilter := do
  let page ← checkPage p.page
  let limit ← checkLimit maxLimit p.limit
  let dateRange ← checkDateRange p.dateRange
  let startDate ← checkWhenDate ("\"startDate\"")
    (siblingStringRef p ("date_range") == some ("custom")) p.startDate
  let endDate ← checkWhenDate ("\"endDate\"")
    (siblingStringRef p ("date_range") == some ("custom")) p.endDate
  let search ← checkSearch p.search
  Except.ok
    { page := page
      limit := limit
      dateRange := dateRange
      startDate := startDate
      endDate := endDate
      search := search }

/-- One clause of the MongoDB filter document the list handler builds:
the ownerId equality, a `$gte`/`$lte` range on a named field, or the
`$or` search over `code` and `name`. -/
inductive Clause where
  | eqOwner (ownerId : String)
  | range (field : String) (lo hi : Option Int)
  | searchOr (text : String)
deriving DecidableEq

/-- Outcome of the GET /plans handler up to the store call: a validation
failure, the internal assertion firing, an exception escaping the handler,
or the paginated store query it issues (filter document, limit, and the
1-indexed page number passed to the store). -/
inductive ListOutcome where
  | badRequest (message : String)
  | internalError (message : String)
  | fatal (message : String)
  | query (clauses : List Clause) (limit page : Int)
deriving DecidableEq

/-- The message of the list handler's internal assertion (part_000 lines
175-178). -/
def assertMessage : String :=
  "The specified date range is invalid. How did Joi let it through?"

/-- The `months` lookup object of the list handler (part_000 lines
166-173). -/
def monthsTable (tag : String) : Option Nat :=
  if tag == "last_3_months" then some 3
  else if tag == "last_6_months" then some 6
  else if tag == "last_9_months" then some 9
  else if tag == "last_12_months" then some 12
  else if tag == "last_15_months" then some 15
  else if tag == "last_18_months" then some 18
  else none

/-- The `$or` search clause added when `value.search` is truthy (part_000
lines 194-197). -/
def searchClauses (search : Option String) : List Clause :=
  match search with
  | none => []
  | some q => [Clause.searchOr q]

/-- Filter assembly and store call of the list handler (part_000 lines
183-205), after the date variables have been resolved: the ownerId clause,
the `createdAt` range clause (unless all_time) with `startOfDay`/`endOfDay`
applied to the resolved instants (`none` stands for an undefined date
variable, which those helpers turn into an invalid date), and the search
clause.  The store is queried with `limit: value.limit` and
`page: value.page + 1`. -/
def buildQuery (v : ValidatedFilter) (callerId : String)
    (startDate endDate : Option Int) (sod eod : Int → Int) : ListOutcome :=
  match objectIdMake callerId with
  | Except.error msg => ListOutcome.fatal msg
  | Except.ok ownerId =>
    let clauses := [Clause.eqOwner ownerId]
      ++ (if v.dateRange != "all_time" then
            [Clause.range ("createdAt") (startDate.map sod) (endDate.map eod)]
          else [])
      ++ searchClauses v.search
    ListOutcome.query clauses v.limit (v.page + 1)

/-- The list handler after validation (part_000 lines 162-205): for a tag
that is neither custom nor all_time, the date variables are overwritten
from the months table — `subMonths(new Date(), amount)` and `new Date()`
at resolution time — with the assertion firing when the table lookup is
falsy (undefined or zero). -/
def listOutcome (v : ValidatedFilter) (callerId : String) (now : Int)
    (subM : Int → Nat → Int) (sod eod : Int → Int) : ListOutcome :=
  if v.dateRange != "custom" && v.dateRange != "all_time" then
    match monthsTable v.dateRange with
    | none => ListOutcome.internalError assertMessage
    | some n =>
      if n == 0 then ListOutcome.internalError assertMessage
      else buildQuery v callerId (some (subM now n)) (some now) sod eod
  else
    buildQuery v callerId v.startDate v.endDate sod eod

/-- The full GET /plans handler (part_000 lines 144-205): validation, date
resolution, filter assembly, store query.  `now` is the instant at which
the handler runs; `subM`, `sod`, `eod` are the external date-fns helpers
`subMonths`, `startOfDay`, `endOfDay`. -/
def listHandler (maxLimit : Int) (p : FilterParams) (callerId : String) (now : Int)
    (subM : Int → Nat → Int) (sod eod : Int → Int) : ListOutcome :=
  match filterValidate maxLimit p with
  | Except.error msg => ListOutcome.badRequest msg
  | Except.ok v => listOutcome v callerId now subM sod eod

/-- The timestamp a plan record exposes under a field name of the filter
document (`createdAt` and `updatedAt` are the record's two date fields). -/
def planField (p : Plan) (field : String) : Option Int :=
  if field == "createdAt" then some p.createdAt
  else if field == "updatedAt" then some p.updatedAt
  else none

/-- MongoDB semantics of a `\x7b $gte: lo, $lte: hi \x7d` range document:
both comparisons must hold; a missing (invalid-date) bound matches
nothing. -/
def rangeMatch (lo hi : Option Int) (t : Int) : Bool :=
  (match lo with
   | some l => l ≤ t
   | none => false) &&
  (match hi with
   | some h => t ≤ h
   | none => false)

/-- Whether a plan satisfies a range clause on a named field. -/
def rangeClauseMatches (field : String) (lo hi : Option Int) (p : Plan) : Bool :=
  match planField p field with
  | some t => rangeMatch lo hi t
  | none => false

/-- A stored user, as the role gate reads it. -/
structure UserRecord where
  identifier : String
  role : String
deriving DecidableEq

/-- Outcome of one invocation of the role-gate middleware: the lookup
error re-thrown, a TypeError crash, the 403 response, or the request
forwarded to the next stage. -/
inductive GateOutcome where
  | fatal (message : String)
  | crash (message : String)
  | forbidden (message : String)
  | forwarded
deriving DecidableEq

/-- The message of the TypeError raised by reading `.role` off a null
lookup result. -/
def nullRoleCrashMessage : String :=
  "TypeError: cannot read role of null"

/-- `requireRole` (requireRole.js lines 20-35).  The callback receives the
user lookup result: an infrastructure error is re-thrown (`fatal`); on
success the source immediately reads `user.role` with no null check, so a
null result (the `Except.ok none` arm) raises a TypeError (`crash`); a
role mismatch sends 403; otherwise the request is forwarded. -/
def requireRole (role : String) (lookupResult : Except String (Option UserRecord)) :
    GateOutcome :=
  match lookupResult with
  | Except.error e => GateOutcome.fatal e
  | Except.ok none => GateOutcome.crash nullRoleCrashMessage
  | Except.ok (some user) =>
    if user.role != role then
      GateOutcome.forbidden ("The requested resource is forbidden.")
    else GateOutcome.forwarded

/-- Whether an `Except` result is a success. -/
def exceptOk {α : Type} (x : Except String α) : Bool :=
  match x with
  | Except.ok _ => true
  | Except.error _ => false

/-- A concrete caller identity: 24 lowercase hex characters. -/
def callerA : String := "0123456789abcdef01234567"

/-- A second concrete identity, distinct from `callerA`. -/
def callerB : String := "76543210fedcba9876543210"

/-- A concrete store-assigned identifier for a new record. -/
def newIdA : String := "aaaaaaaaaaaaaaaaaaaaaaaa"

/-- A concrete valid create body; its `ownerId` field is set to show the
handler ignores it. -/
def witnessBody : PlanBody :=
  { name := some ("Starter")
    code := some ("STARTER")
    description := none
    billingCyclePeriod := some 1
    billingCyclePeriodUnit := some ("months")
    pricePerBillingCycle := some 10
    setupFee := none
    totalBillingCycles := some 12
    trialPeriod := none
    trialPeriodUnit := none
    renews := none
    ownerId := some ("ffffffffffffffffffffffff") }

/-- The value set `planSchema.validate` produces for `witnessBody`. -/
def witnessValue : ValidatedPlan :=
  { name := "Starter"
    code := "starter"
    description := none
    billingCyclePeriod := 1
    billingCyclePeriodUnit := "months"
    pricePerBillingCycle := 10
    setupFee := 0
    totalBillingCycles := 12
    trialPeriod := 0
    trialPeriodUnit := "days"
    renews := true }

/-- Concrete list-request parameters: `date_range=custom` with no explicit
start or end instant. -/
def customNoDates : FilterParams :=
  { page := none
    limit := none
    dateRange := some ("custom")
    startDate := none
    endDate := none
    search := none }

/-- The value set `filterSchema.validate` produces for `customNoDates`. -/
def customNoDatesValidated : ValidatedFilter :=
  { page := 0
    limit := 20
    dateRange := "custom"
    startDate := none
    endDate := none
    search := none }

/-- Concrete list-request parameters asking for the last three months. -/
def last3Params : FilterParams :=
  { page := none
    limit := none
    dateRange := some ("last_3_months")
    startDate := none
    endDate := none
    search := none }

/-- A 24-character lowercase-alphanumeric identifier that is not
hexadecimal. -/
def zIdentifier : String := "zzzzzzzzzzzzzzzzzzzzzzzz"

/-- The value set `filterSchema.validate` produces for `last3Params`. -/
def last3Validated : ValidatedFilter :=
  { page := 0
    limit := 20
    dateRange := "last_3_months"
    startDate := none
    endDate := none
    search := none }

/-- A stored identifier distinct from the witness ones. -/
def planIdB : String := "abcdefabcdefabcdefabcdef"

/-- A lowercase hexadecimal digit is a hexadecimal digit. -/
theorem isLowerHexChar_isHexChar (c : Char) (h : isLowerHexChar c = true) :
    isHexChar c = true := by
  simp [isHexChar, h]

/-- A lowercase hexadecimal digit lies in the route pattern's character
class. -/
theorem isLowerHexChar_isIdentChar (c : Char) (h : isLowerHexChar c = true) :
    isIdentChar c = true := by
  simp only [isLowerHexChar, Bool.or_eq_true, Bool.and_eq_true, decide_eq_true_eq] at h
  simp only [isIdentChar, Bool.or_eq_true, Bool.and_eq_true, decide_eq_true_eq]
  rcases h with ⟨h1, h2⟩ | ⟨h1, h2⟩
  · right; exact ⟨h1, h2⟩
  · left; exact ⟨h1, le_trans h2 (by decide)⟩

/-- A well-formed (24 lowercase hex) identifier passes the route pattern. -/
theorem isLowerHex24_pattern (s : String) (h : isLowerHex24 s = true) :
    identifierPattern s = true := by
  simp only [isLowerHex24, Bool.and_eq_true, List.all_eq_true, beq_iff_eq] at h
  simp only [identifierPattern, Bool.and_eq_true, List.all_eq_true, beq_iff_eq]
  exact ⟨h.1, fun c hc => isLowerHexChar_isIdentChar c (h.2 c hc)⟩

/-- ObjectId construction succeeds on a well-formed identifier. -/
theorem objectIdMake_lowerHex (s : String) (h : isLowerHex24 s = true) :
    objectIdMake s = Except.ok s := by
  have hx : (s.length == 24 && s.data.all isHexChar) = true := by
    simp only [isLowerHex24, Bool.and_eq_true, List.all_eq_true, beq_iff_eq] at h
    simp only [Bool.and_eq_true, List.all_eq_true, beq_iff_eq]
    exact ⟨h.1, fun c hc => isLowerHexChar_isHexChar c (h.2 c hc)⟩
  simp [objectIdMake, hx]

/-- C3: when the user lookup succeeds but returns a null result, the
middleware as written reads `.role` off null and raises a TypeError — it
crashes rather than responding FORBIDDEN, and it does not forward the
request either. -/
theorem requireRole_null_user_crashes :
    requireRole ("admin") (Except.ok none) = GateOutcome.crash nullRoleCrashMessage
    ∧ (∀ m, requireRole ("admin") (Except.ok none) ≠ GateOutcome.forbidden m)
    ∧ requireRole ("admin") (Except.ok none) ≠ GateOutcome.forwarded := by
  refine ⟨rfl, fun m h => ?_, fun h => ?_⟩ <;> simp [requireRole] at h

/-- C4: the schema's conditional requirement watches the sibling key
`date_range`, which is not a key of the validated object (whose key is
`dateRange`), so a custom range with neither start nor end instant passes
validation — for every configured maximum limit — and the request goes on
to the store query instead of failing with BAD_REQUEST. -/
theorem filter_custom_without_dates_passes :
    (∀ maxLimit : Int,
      filterValidate maxLimit customNoDates = Except.ok customNoDatesValidated)
    ∧ listHandler 100 customNoDates callerA 0 (fun d _ => d) (fun d => d) (fun d => d) =
        ListOutcome.query [Clause.eqOwner callerA, Clause.range ("createdAt") none none] 20 1 :=
  ⟨fun _ => rfl, rfl⟩

/-- C5 counterexample: a 24-character identifier of z characters is not
lowercase hexadecimal, yet the handler does not respond BAD_REQUEST: the
identifier passes the route pattern (lowercase alphanumeric), and the
subsequent ObjectId conversion throws, surfacing as a fatal error rather
than a 400 response. -/
theorem getById_nonhex_not_badRequest :
    getPlanById zIdentifier callerA [] =
      Response.fatal ("Argument passed in must be a string of 24 hex characters")
    ∧ getPlanById zIdentifier callerA [] ≠
      Response.badRequest ("The specified plan identifier is invalid.") :=
  ⟨rfl, by decide⟩

/-- C5 amended: an identifier failing the route pattern `^[a-z0-9]\x7b24\x7d$`
(wrong length, or a character outside lowercase alphanumerics) is answered
with BAD_REQUEST, and the response is the same whatever the store holds —
the store is never consulted. -/
theorem getById_malformed_badRequest
    (identifier callerId : String) (store store2 : List Plan)
    (h : identifierPattern identifier = false) :
    getPlanById identifier callerId store =
      Response.badRequest ("The specified plan identifier is invalid.")
    ∧ getPlanById identifier callerId store = getPlanById identifier callerId store2 := by
  constructor <;> simp [getPlanById, h]

/-- Witness for the amended C5 theorem at a wrong-length identifier and two
different stores. -/
theorem getById_malformed_badRequest_witness :
    getPlanById ("abc") callerA [] =
      Response.badRequest ("The specified plan identifier is invalid.")
    ∧ getPlanById ("abc") callerA [] =
      getPlanById ("abc") callerA [mkPlan witnessValue callerA newIdA 0] :=
  getById_malformed_badRequest ("abc") callerA [] [mkPlan witnessValue callerA newIdA 0]
    (by decide)

/-- C9 counterexample: the trimmed one-character name a is rejected by the
create schema's name rule (its minimum is 2), though the claim says any
trimmed length from 1 to 100 passes. -/
theorem name_length_one_fails :
    checkName (some ("a")) =
      Except.error ("\"name\" length must be at least 2 characters long")
    ∧ (strTrim ("a")).length = 1 :=
  ⟨rfl, rfl⟩

/-- C9 amended: a name passes the create schema's name rule exactly when
its trimmed length is between 2 and 100; trimmed lengths 0 and 1, and
lengths above 100, fail. -/
theorem name_rule_bounds (s : String) :
    exceptOk (checkName (some s)) = true ↔
      (2 ≤ (strTrim s).length ∧ (strTrim s).length ≤ 100) := by
  simp only [checkName]
  split_ifs with h1 h2
  · simp [exceptOk]; omega
  · simp [exceptOk]; omega
  · simp [exceptOk]; omega

/-- C1: for every valid create request the persisted plan and the plan in
the 201 response carry the caller's identity as ownerId, and the whole
outcome is unchanged under any ownerId the body may carry — the body's
ownerId is never read. -/
theorem create_ownerId_from_caller
    (body : PlanBody) (callerId newId : String) (store : List Plan) (now : Int)
    (value : ValidatedPlan)
    (hval : planValidate (extractParameters body) = Except.ok value)
    (hcaller : isLowerHex24 callerId = true)
    (hnodup : duplicateCheck store value.code callerId = none) :
    createPlan body callerId store newId now =
      (Response.created (toExternal (mkPlan value callerId newId now)),
        store ++ [mkPlan value callerId newId now])
    ∧ (mkPlan value callerId newId now).ownerId = callerId
    ∧ (toExternal (mkPlan value callerId newId now)).ownerId = callerId
    ∧ ∀ x, createPlan { body with ownerId := x } callerId store newId now =
        createPlan body callerId store newId now := by
  refine ⟨?_, rfl, rfl, fun x => ?_⟩
  · simp [createPlan, hval, objectIdMake_lowerHex callerId hcaller, hnodup]
  · cases body; rfl

/-- Witness for C1: a concrete valid body (carrying a client-supplied
ownerId) against an empty store. -/
theorem create_ownerId_from_caller_witness :
    createPlan witnessBody callerA [] newIdA 0 =
      (Response.created (toExternal (mkPlan witnessValue callerA newIdA 0)),
        [] ++ [mkPlan witnessValue callerA newIdA 0])
    ∧ (mkPlan witnessValue callerA newIdA 0).ownerId = callerA
    ∧ (toExternal (mkPlan witnessValue callerA newIdA 0)).ownerId = callerA
    ∧ ∀ x, createPlan { witnessBody with ownerId := x } callerA [] newIdA 0 =
        createPlan witnessBody callerA [] newIdA 0 :=
  create_ownerId_from_caller witnessBody callerA newIdA [] 0 witnessValue rfl (by decide) rfl

/-- C2: for a well-formed identifier with no matching plan owned by the
caller, the response is the fixed NOT_FOUND, and it is identical to the
response the same request gets against an empty store — a plan of another
owner is indistinguishable from a missing record. -/
theorem getById_no_owned_match_notFound
    (identifier callerId : String) (store : List Plan)
    (hid : isLowerHex24 identifier = true)
    (hcaller : isLowerHex24 callerId = true)
    (hmiss : ∀ p ∈ store, ¬(p.id = identifier ∧ p.ownerId = callerId)) :
    getPlanById identifier callerId store =
      Response.notFound ("Cannot find a plan with the specified identifier.")
    ∧ getPlanById identifier callerId store = getPlanById identifier callerId [] := by
  have hpat := isLowerHex24_pattern identifier hid
  have h1 := objectIdMake_lowerHex callerId hcaller
  have h2 := objectIdMake_lowerHex identifier hid
  have hfind : store.find? (fun p => p.id == identifier && p.ownerId == callerId) = none := by
    refine List.find?_eq_none.mpr (fun p hp => ?_)
    intro hcontra
    simp only [Bool.and_eq_true, beq_iff_eq] at hcontra
    exact hmiss p hp hcontra
  constructor <;> simp [getPlanById, hpat, h1, h2, hfind]

/-- Witness for C2: the store holds a plan with the requested identifier
but owned by another caller; the caller gets the same NOT_FOUND as against
an empty store. -/
theorem getById_no_owned_match_notFound_witness :
    getPlanById planIdB callerA [mkPlan witnessValue callerB planIdB 0] =
      Response.notFound ("Cannot find a plan with the specified identifier.")
    ∧ getPlanById planIdB callerA [mkPlan witnessValue callerB planIdB 0] =
      getPlanById planIdB callerA [] :=
  getById_no_owned_match_notFound planIdB callerA [mkPlan witnessValue callerB planIdB 0]
    (by decide) (by decide) (by decide)

/-- C6: a valid create whose owner already has a plan with the same
normalized code is answered with the specific duplicate-code BAD_REQUEST,
and the store is returned unchanged — nothing is written. -/
theorem create_duplicate_code_rejected
    (body : PlanBody) (callerId newId : String) (store : List Plan) (now : Int)
    (value : ValidatedPlan) (existing : Plan)
    (hval : planValidate (extractParameters body) = Except.ok value)
    (hcaller : isLowerHex24 callerId = true)
    (hdup : duplicateCheck store value.code callerId = some existing) :
    createPlan body callerId store newId now =
      (Response.badRequest ("A plan with the specified code already exists."), store) := by
  simp [createPlan, hval, objectIdMake_lowerHex callerId hcaller, hdup]

/-- Witness for C6: re-creating the witness plan for the same owner is
rejected and the store is unchanged. -/
theorem create_duplicate_code_rejected_witness :
    createPlan witnessBody callerA [mkPlan witnessValue callerA newIdA 0] newIdA 5 =
      (Response.badRequest ("A plan with the specified code already exists."),
        [mkPlan witnessValue callerA newIdA 0]) :=
  create_duplicate_code_rejected witnessBody callerA newIdA
    [mkPlan witnessValue callerA newIdA 0] 5 witnessValue
    (mkPlan witnessValue callerA newIdA 0) rfl (by decide) rfl

/-- A months-table hit certifies the tag is neither custom nor all_time and
the amount is truthy (nonzero). -/
theorem monthsTable_spec (tag : String) (n : Nat) (h : monthsTable tag = some n) :
    (tag != "custom" && tag != "all_time") = true ∧ (n == 0) = false := by
  unfold monthsTable at h
  split_ifs at h with h1 h2 h3 h4 h5 h6
  · injection h with hn; subst hn; simp only [beq_iff_eq] at h1; subst h1; decide
  · injection h with hn; subst hn; simp only [beq_iff_eq] at h2; subst h2; decide
  · injection h with hn; subst hn; simp only [beq_iff_eq] at h3; subst h3; decide
  · injection h with hn; subst hn; simp only [beq_iff_eq] at h4; subst h4; decide
  · injection h with hn; subst hn; simp only [beq_iff_eq] at h5; subst h5; decide
  · injection h with hn; subst hn; simp only [beq_iff_eq] at h6; subst h6; decide

/-- Inversion of an Except bind that succeeded. -/
theorem bind_ok {α β : Type} (x : Except String α) (f : α → Except String β) (b : β)
    (h : x >>= f = Except.ok b) : ∃ a, x = Except.ok a ∧ f a = Except.ok b := by
  cases x with
  | error e => exact Except.noConfusion (show Except.error e = Except.ok b from h)
  | ok a => exact ⟨a, rfl, h⟩

/-- A successful dateRange check yields one of the schema's valid tags. -/
theorem checkDateRange_valid (o : Option String) (s : String)
    (h : checkDateRange o = Except.ok s) : isValidDateRangeTag s = true := by
  cases o with
  | none => injection h with h; subst h; decide
  | some t =>
    simp only [checkDateRange] at h
    split_ifs at h with h1
    · injection h with h; subst h; exact h1

/-- A value set produced by `filterSchema.validate` carries a valid tag. -/
theorem filterValidate_ok_tag (maxLimit : Int) (p : FilterParams) (v : ValidatedFilter)
    (h : filterValidate maxLimit p = Except.ok v) :
    isValidDateRangeTag v.dateRange = true := by
  simp only [filterValidate] at h
  obtain ⟨page, hpage, h⟩ := bind_ok _ _ _ h
  obtain ⟨limit, hlimit, h⟩ := bind_ok _ _ _ h
  obtain ⟨dr, hdr, h⟩ := bind_ok _ _ _ h
  obtain ⟨sd, hsd, h⟩ := bind_ok _ _ _ h
  obtain ⟨ed, hed, h⟩ := bind_ok _ _ _ h
  obtain ⟨se, hse, h⟩ := bind_ok _ _ _ h
  injection h with h
  subst h
  exact checkDateRange_valid _ _ hdr

/-- A valid tag that is neither custom nor all_time is in the months
table. -/
theorem valid_tag_monthsTable (tag : String)
    (hmem : isValidDateRangeTag tag = true)
    (hcond : (tag != "custom" && tag != "all_time") = true) :
    ∃ n, monthsTable tag = some n := by
  simp only [isValidDateRangeTag, Bool.or_eq_true, beq_iff_eq] at hmem
  rcases hmem with ((((((rfl | rfl) | rfl) | rfl) | rfl) | rfl) | rfl) | rfl
  · exact absurd hcond (by decide)
  · exact ⟨3, rfl⟩
  · exact ⟨6, rfl⟩
  · exact ⟨9, rfl⟩
  · exact ⟨12, rfl⟩
  · exact ⟨15, rfl⟩
  · exact ⟨18, rfl⟩
  · exact absurd hcond (by decide)

/-- The filter-assembly step never produces the assertion failure. -/
theorem buildQuery_ne_internalError (v : ValidatedFilter) (callerId : String)
    (s e : Option Int) (sod eod : Int → Int) (m : String) :
    buildQuery v callerId s e sod eod ≠ ListOutcome.internalError m := by
  unfold buildQuery
  cases hx : objectIdMake callerId with
  | error msg => simp [hx]
  | ok oid => simp [hx]

/-- C8: the internal assertion of the list handler never fires — for every
request whatsoever the outcome is never the assertion's internal error,
because the months table is total over the tags the validation schema can
produce; and a tag outside the recognized set reaching the resolution step
is answered by the assertion's internal error, a fatal internal failure
rather than a user-facing BAD_REQUEST. -/
theorem list_assert_never_fires :
    (∀ (maxLimit : Int) (p : FilterParams) (callerId : String) (now : Int)
        (subM : Int → Nat → Int) (sod eod : Int → Int),
        listHandler maxLimit p callerId now subM sod eod ≠
          ListOutcome.internalError assertMessage)
    ∧ (∀ (v : ValidatedFilter) (callerId : String) (now : Int)
        (subM : Int → Nat → Int) (sod eod : Int → Int),
        (v.dateRange != "custom" && v.dateRange != "all_time") = true →
        monthsTable v.dateRange = none →
        listOutcome v callerId now subM sod eod =
          ListOutcome.internalError assertMessage) := by
  constructor
  · intro M p c now sM sd ed hcontra
    unfold listHandler at hcontra
    split at hcontra
    · exact ListOutcome.noConfusion hcontra
    · rename_i v hfv
      have hmem := filterValidate_ok_tag M p v hfv
      unfold listOutcome at hcontra
      split_ifs at hcontra with hcond
      · obtain ⟨n, hsome⟩ := valid_tag_monthsTable v.dateRange hmem hcond
        rw [hsome] at hcontra
        dsimp only at hcontra
        have hzero := (monthsTable_spec v.dateRange n hsome).2
        rw [hzero] at hcontra
        simp only [Bool.false_eq_true, if_false] at hcontra
        exact buildQuery_ne_internalError v c _ _ sd ed assertMessage hcontra
      · exact buildQuery_ne_internalError v c _ _ sd ed assertMessage hcontra
  · intro v c now sM sd ed hcond hnone
    unfold listOutcome
    rw [if_pos hcond, hnone]

/-- C7: for a named relative range of N months the list handler queries the
store with a createdAt clause whose lower bound is start-of-day of
(resolution-time now minus N months) and whose upper bound is end-of-day of
resolution-time now, both bounds inclusive (a closed interval); and for
all_time the filter carries no date clause at all. -/
theorem list_relative_range_filter
    (maxLimit : Int) (p : FilterParams) (callerId : String) (now : Int)
    (subM : Int → Nat → Int) (sod eod : Int → Int) (v : ValidatedFilter)
    (hval : filterValidate maxLimit p = Except.ok v)
    (hcaller : isLowerHex24 callerId = true) :
    (∀ n, monthsTable v.dateRange = some n →
      listHandler maxLimit p callerId now subM sod eod =
        ListOutcome.query
          ([Clause.eqOwner callerId,
            Clause.range ("createdAt") (some (sod (subM now n))) (some (eod now))]
            ++ searchClauses v.search)
          v.limit (v.page + 1))
    ∧ (v.dateRange = "all_time" →
      listHandler maxLimit p callerId now subM sod eod =
        ListOutcome.query ([Clause.eqOwner callerId] ++ searchClauses v.search)
          v.limit (v.page + 1))
    ∧ (∀ lo hi q, rangeClauseMatches ("createdAt") (some lo) (some hi) q = true ↔
        (lo ≤ q.createdAt ∧ q.createdAt ≤ hi)) := by
  have hoid := objectIdMake_lowerHex callerId hcaller
  refine ⟨fun n hmt => ?_, fun hall => ?_, fun lo hi q => ?_⟩
  · have hspec := monthsTable_spec v.dateRange n hmt
    have hba : (v.dateRange != "all_time") = true := by
      have h1 := hspec.1
      simp only [Bool.and_eq_true] at h1
      exact h1.2
    unfold listHandler
    rw [hval]
    dsimp only
    unfold listOutcome
    rw [if_pos hspec.1, hmt]
    dsimp only
    rw [hspec.2]
    simp only [Bool.false_eq_true, if_false]
    unfold buildQuery
    rw [hoid]
    dsimp only
    rw [if_pos hba]
    simp [Option.map]
  · have hcond : (v.dateRange != "custom" && v.dateRange != "all_time") = false := by
      rw [hall]; decide
    have hba : (v.dateRange != "all_time") = false := by rw [hall]; decide
    unfold listHandler
    rw [hval]
    dsimp only
    unfold listOutcome
    rw [hcond]
    simp only [Bool.false_eq_true, if_false]
    unfold buildQuery
    rw [hoid]
    dsimp only
    rw [hba]
    simp
  · simp [rangeClauseMatches, planField, rangeMatch, Bool.and_eq_true, decide_eq_true_eq]

/-- Witness for C7: the last_3_months filter at resolution time 0 with
concrete date helpers — subtracting k months subtracts k, start-of-day
subtracts one, end-of-day adds one — yields the closed createdAt interval
from minus four to one. -/
theorem list_relative_range_filter_witness :
    listHandler 100 last3Params callerA 0 (fun d k => d - (k : Int))
      (fun d => d - 1) (fun d => d + 1) =
      ListOutcome.query
        ([Clause.eqOwner callerA,
          Clause.range ("createdAt") (some (-4)) (some 1)]
          ++ searchClauses last3Validated.search)
        last3Validated.limit (last3Validated.page + 1) :=
  (list_relative_range_filter 100 last3Params callerA 0 (fun d k => d - (k : Int))
    (fun d => d - 1) (fun d => d + 1) last3Validated rfl (by decide)).1 3 rfl

/-- Every range clause of a filter the assembly step builds targets the
createdAt field. -/
theorem buildQuery_range_createdAt
    (v : ValidatedFilter) (callerId : String) (s e : Option Int) (sod eod : Int → Int)
    (cls : List Clause) (lim pg : Int)
    (hq : buildQuery v callerId s e sod eod = ListOutcome.query cls lim pg)
    (f : String) (lo hi : Option Int) (hmem : Clause.range f lo hi ∈ cls) :
    f = "createdAt" := by
  unfold buildQuery at hq
  cases hx : objectIdMake callerId with
  | error msg => rw [hx] at hq; exact ListOutcome.noConfusion hq
  | ok oid =>
    rw [hx] at hq
    dsimp only at hq
    injection hq with h1 h2 h3
    subst h1
    rcases List.mem_append.mp hmem with hmem1 | hmem2
    · rcases List.mem_append.mp hmem1 with hA | hB
      · simp at hA
      · split_ifs at hB with hb
        · simp only [List.mem_singleton, Clause.range.injEq] at hB
          exact hB.1
        · simp at hB
    · cases hs : v.search with
      | none => rw [hs] at hmem2; simp [searchClauses] at hmem2
      | some q => rw [hs] at hmem2; simp [searchClauses] at hmem2

/-- Every range clause of a query the post-validation handler issues
targets the createdAt field. -/
theorem listOutcome_range_createdAt
    (v : ValidatedFilter) (callerId : String) (now : Int)
    (subM : Int → Nat → Int) (sod eod : Int → Int)
    (cls : List Clause) (lim pg : Int)
    (hq : listOutcome v callerId now subM sod eod = ListOutcome.query cls lim pg)
    (f : String) (lo hi : Option Int) (hmem : Clause.range f lo hi ∈ cls) :
    f = "createdAt" := by
  unfold listOutcome at hq
  split_ifs at hq with hcond
  · cases hmt : monthsTable v.dateRange with
    | none => rw [hmt] at hq; exact ListOutcome.noConfusion hq
    | some n =>
      rw [hmt] at hq
      dsimp only at hq
      split_ifs at hq with hn
      exact buildQuery_range_createdAt _ _ _ _ _ _ _ _ _ hq f lo hi hmem
  · exact buildQuery_range_createdAt _ _ _ _ _ _ _ _ _ hq f lo hi hmem

/-- C10: in every store query the list handler issues, every range clause
sits on the createdAt field, and whether a plan satisfies such a clause
depends only on the plan's creation timestamp — two plans with equal
createdAt are selected identically, whatever their updatedAt or other
fields. -/
theorem list_bounds_only_createdAt
    (maxLimit : Int) (p : FilterParams) (callerId : String) (now : Int)
    (subM : Int → Nat → Int) (sod eod : Int → Int)
    (cls : List Clause) (lim pg : Int)
    (hq : listHandler maxLimit p callerId now subM sod eod = ListOutcome.query cls lim pg) :
    ∀ f lo hi, Clause.range f lo hi ∈ cls →
      f = "createdAt"
      ∧ ∀ q r : Plan, q.createdAt = r.createdAt →
          rangeClauseMatches f lo hi q = rangeClauseMatches f lo hi r := by
  intro f lo hi hmem
  unfold listHandler at hq
  split at hq
  · exact ListOutcome.noConfusion hq
  · rename_i v hfv
    have hf := listOutcome_range_createdAt _ _ _ _ _ _ _ _ _ hq f lo hi hmem
    refine ⟨hf, fun q r hqr => ?_⟩
    subst hf
    simp [rangeClauseMatches, planField, hqr]

/-- Witness for C10: the last_3_months query contains the createdAt range
clause, and its selection depends only on creation time. -/
theorem list_bounds_only_createdAt_witness :
    ("createdAt" : String) = "createdAt"
    ∧ ∀ q r : Plan, q.createdAt = r.createdAt →
        rangeClauseMatches ("createdAt") (some (-4)) (some 1) q =
        rangeClauseMatches ("createdAt") (some (-4)) (some 1) r :=
  list_bounds_only_createdAt 100 last3Params callerA 0 (fun d k => d - (k : Int))
    (fun d => d - 1) (fun d => d + 1)
    [Clause.eqOwner callerA, Clause.range ("createdAt") (some (-4)) (some 1)] 20 1 (by decide)
    ("createdAt") (some (-4)) (some 1) (by simp)
